import Mathlib

/-!
Verification of the session/preference-resolution and UI-coordination core of
the overlay application: the preference resolver, the panel state flags, the
inactivity timer discipline, the drag/click disambiguator, the subtitle
simulator and the auth action handler, shallowly embedded from the source.
-/

namespace YouVoix

/-- Modelled from the spec: the translation catalog module (lib/i18n) is not
among the provided sources. The spec fixes a closed set of supported
LanguageCodes with default en, and the App source enumerates en, es, fr, pt
in its language selector and in the country-to-language map. -/
def supportedLanguages : List String := ["en", "es", "fr", "pt"]

/-- Whether a code is a key of the translation catalog (truthiness of
translations[code] in the source). -/
def isSupported (code : String) : Bool := supportedLanguages.contains code

/-- Environment of one resolution pass of loadUserProfile: the current
identity (uid when present), the outcome of the durable per-identity read
(the get may throw; the doc may be absent or lack a language field),
the local ephemeral store entry, the runtime locale string, and the outcome
of the geolocation lookup (the fetch may fail; country_code may be absent). -/
structure ResolveEnv where
  user : Option String
  firestoreLanguage : Except Unit (Option String)
  localStoreLang : Option String
  navigatorLanguage : String
  geoCountryCode : Except Unit (Option String)

/-- Result of one resolution pass: the language set by setDetectedLang, how
many geolocation fetches were issued, and the durable merge write performed
(uid and language), when any. -/
structure ResolveResult where
  detectedLang : String
  geoCalls : Nat
  firestoreWrite : Option (String × String)
deriving DecidableEq, Repr

/-- The langMap table of loadUserProfile: country code to language. -/
def countryToLang (cc : String) : Option String :=
  if cc = "es" then some "es"
  else if cc = "mx" then some "es"
  else if cc = "fr" then some "fr"
  else if cc = "pt" then some "pt"
  else if cc = "br" then some "pt"
  else none

/-- navigator.language split at the dash, first element: the primary subtag
of the locale, that is the characters before the first dash (the whole
string when no dash occurs). -/
def primarySubtag (s : String) : String :=
  String.mk (s.toList.takeWhile (fun c => c ≠ '-'))

/-- Priority 1 of loadUserProfile: with an identity present, the durable read
adopts the stored language field when the read succeeds, the doc exists and
the field is truthy (a nonempty string). A thrown read is caught and yields
nothing. Note the source checks truthiness only, not catalog membership. -/
def durableAdopted (env : ResolveEnv) : Option String :=
  match env.user with
  | none => none
  | some _ =>
    match env.firestoreLanguage with
    | .error _ => none
    | .ok none => none
    | .ok (some lang) => if lang = "" then none else some lang

/-- Priority 2 of loadUserProfile: the local ephemeral store entry is adopted
when truthy and a key of the translation catalog. -/
def localStoreAdopted (env : ResolveEnv) : Option String :=
  match env.localStoreLang with
  | none => none
  | some lang => if lang ≠ "" && isSupported lang then some lang else none

/-- Priority 3 of loadUserProfile: default en; prefer the supported primary
locale subtag without any network call; otherwise fetch the geolocation
service once and map the country code through langMap, swallowing failures.
Returns the chosen language and the number of fetches issued. -/
def autoDetect (env : ResolveEnv) : String × Nat :=
  let browserLang := primarySubtag env.navigatorLanguage
  if isSupported browserLang then (browserLang, 0)
  else
    match env.geoCountryCode with
    | .error _ => ("en", 1)
    | .ok none => ("en", 1)
    | .ok (some cc) =>
      if cc = "" then ("en", 1)
      else
        match countryToLang cc.toLower with
        | some l => (l, 1)
        | none => ("en", 1)

/-- The full resolution pass of loadUserProfile: priorities 1 to 3 in order,
first match wins; in the priority 3 path only, an identity present gets the
detected language merged into its durable record. -/
def loadUserProfile (env : ResolveEnv) : ResolveResult :=
  match durableAdopted env with
  | some lang => ⟨lang, 0, none⟩
  | none =>
    match localStoreAdopted env with
    | some lang => ⟨lang, 0, none⟩
    | none =>
      let r := autoDetect env
      ⟨r.1, r.2, env.user.map fun uid => (uid, r.1)⟩

/-- Merge-write semantics of the durable store set with merge true, per the
external-interface contract: only the language field is replaced. -/
def mergeLanguage (record : String → Option String) (lang : String) :
    String → Option String :=
  fun k => if k = "language" then some lang else record k

/-- Helper: every supported code is a nonempty string. -/
theorem isSupported_ne_empty {L : String} (h : isSupported L = true) : L ≠ "" := by
  have hmem : L = "en" ∨ L = "es" ∨ L = "fr" ∨ L = "pt" := by
    simpa [isSupported, supportedLanguages] using h
  rcases hmem with h1 | h1 | h1 | h1 <;> subst h1 <;> decide

/-- Claim C1: strict priority order. For an identity whose durable record
holds a supported language L, the resolved language is L whatever the local
store, locale and geolocation hold; for an absent identity with a supported
code L in the local ephemeral store, the resolved language is L whatever the
locale and geolocation hold. -/
theorem claim_C1_priority_order (env : ResolveEnv) (L : String) :
    (env.user.isSome = true → env.firestoreLanguage = .ok (some L) →
      isSupported L = true → (loadUserProfile env).detectedLang = L) ∧
    (env.user = none → env.localStoreLang = some L →
      isSupported L = true → (loadUserProfile env).detectedLang = L) := by
  constructor
  · intro hu hf hs
    obtain ⟨uid, huid⟩ := Option.isSome_iff_exists.mp hu
    have hne : L ≠ "" := isSupported_ne_empty hs
    have hd : durableAdopted env = some L := by
      simp [durableAdopted, huid, hf, hne]
    simp [loadUserProfile, hd]
  · intro hu hl hs
    have hne : L ≠ "" := isSupported_ne_empty hs
    have hd : durableAdopted env = none := by
      simp [durableAdopted, hu]
    have hl2 : localStoreAdopted env = some L := by
      simp [localStoreAdopted, hl, hne, hs]
    simp [loadUserProfile, hd, hl2]

theorem claim_C1_witness :
    ((some "u1" : Option String).isSome = true ∧
      (loadUserProfile ⟨some "u1", .ok (some "fr"), some "es", "pt-BR",
        .ok (some "MX")⟩).detectedLang = "fr") ∧
    (loadUserProfile ⟨none, .error (), some "es", "pt-BR",
        .ok (some "MX")⟩).detectedLang = "es" :=
  ⟨⟨rfl, (claim_C1_priority_order ⟨some "u1", .ok (some "fr"), some "es",
      "pt-BR", .ok (some "MX")⟩ "fr").1 rfl rfl (by decide)⟩,
   (claim_C1_priority_order ⟨none, .error (), some "es", "pt-BR",
      .ok (some "MX")⟩ "es").2 rfl rfl (by decide)⟩

/-- Claim C2 counterexample: with an identity present whose durable record
holds the unsupported code de, and with the supported code es in the local
store, the resolver adopts de and stops; the claimed fall-through to the next
step does not happen. The source tests truthiness of the stored field only,
never catalog membership. -/
theorem claim_C2_counterexample :
    isSupported "de" = false ∧
    (loadUserProfile ⟨some "u1", .ok (some "de"), some "es", "en-US",
      .ok (some "FR")⟩).detectedLang = "de" := by
  constructor
  · decide
  · rfl

/-- Claim C2 amended: in resolution step 1, any truthy (nonempty) code read
from the durable record of a present identity is adopted as the effective
language, supported or not; only an absent, empty or failing read lets the
resolution continue with the next step. Display lookups fall back to the
default bundle when the adopted code is not in the catalog. -/
theorem claim_C2_amended (env : ResolveEnv) (uid : String) (lang : String) :
    env.user = some uid → env.firestoreLanguage = .ok (some lang) →
    lang ≠ "" → loadUserProfile env = ⟨lang, 0, none⟩ := by
  intro hu hf hne
  have hd : durableAdopted env = some lang := by
    simp [durableAdopted, hu, hf, hne]
  simp [loadUserProfile, hd]

theorem claim_C2_amended_witness :
    (some "u1" : Option String) = some "u1" ∧
    loadUserProfile ⟨some "u1", .ok (some "de"), some "es", "en-US",
      .ok (some "FR")⟩ = ⟨"de", 0, none⟩ :=
  ⟨rfl, claim_C2_amended ⟨some "u1", .ok (some "de"), some "es", "en-US",
      .ok (some "FR")⟩ "u1" "de" rfl rfl (by decide)⟩

/-- Claim C4 counterexample: identity present, durable record empty, local
store holds the supported code es. The language es is adopted from the local
store, not from the durable record, yet no durable write-back happens: the
source writes back only on the auto-detect path. -/
theorem claim_C4_counterexample :
    (loadUserProfile ⟨some "u1", .ok none, some "es", "en-US",
      .ok (some "FR")⟩).detectedLang = "es" ∧
    (loadUserProfile ⟨some "u1", .ok none, some "es", "en-US",
      .ok (some "FR")⟩).firestoreWrite = none := by
  constructor <;> rfl

/-- Claim C4 amended: the resolved code is written back to the durable record
of a present identity exactly when resolution reaches the auto-detect step,
that is when neither the durable record nor the local store adopted a code;
a language adopted from the local store is not written back. The write has
merge semantics: fields other than language are preserved. -/
theorem claim_C4_amended (env : ResolveEnv) (uid : String)
    (record : String → Option String) (k lang : String) :
    (env.user = some uid → durableAdopted env = none →
      localStoreAdopted env = none →
      (loadUserProfile env).firestoreWrite =
        some (uid, (loadUserProfile env).detectedLang)) ∧
    (durableAdopted env = some lang ∨ localStoreAdopted env = some lang →
      (loadUserProfile env).firestoreWrite = none) ∧
    (k ≠ "language" → mergeLanguage record lang k = record k) ∧
    mergeLanguage record lang "language" = some lang := by
  refine ⟨?_, ?_, ?_, ?_⟩
  · intro hu hd hl
    simp [loadUserProfile, hd, hl, hu]
  · intro h
    rcases h with h | h
    · simp [loadUserProfile, h]
    · cases hd : durableAdopted env with
      | some l => simp [loadUserProfile, hd]
      | none => simp [loadUserProfile, hd, h]
  · intro hk
    simp [mergeLanguage, hk]
  · simp [mergeLanguage]

theorem claim_C4_amended_witness :
    ((some "u1" : Option String) = some "u1" ∧
      durableAdopted ⟨some "u1", .ok none, none, "de-DE", .error ()⟩ = none ∧
      localStoreAdopted ⟨some "u1", .ok none, none, "de-DE", .error ()⟩ = none ∧
      (loadUserProfile ⟨some "u1", .ok none, none, "de-DE", .error ()⟩).firestoreWrite =
        some ("u1", (loadUserProfile ⟨some "u1", .ok none, none, "de-DE",
          .error ()⟩).detectedLang)) ∧
    mergeLanguage (fun _ => some "v") "en" "email" = some "v" :=
  ⟨⟨rfl, by decide, by decide,
    (claim_C4_amended ⟨some "u1", .ok none, none, "de-DE", .error ()⟩ "u1"
      (fun _ => some "v") "email" "en").1 rfl (by decide) (by decide)⟩,
   (claim_C4_amended ⟨some "u1", .ok none, none, "de-DE", .error ()⟩ "u1"
      (fun _ => some "v") "email" "en").2.2.1 (by decide)⟩

/-- Claim C5: a geolocation fetch happens only when no synchronous signal
resolves a language: whenever a fetch was issued, the durable record and the
local store adopted nothing and the primary locale subtag is unsupported.
A supported subtag is chosen with zero fetches. When no synchronous signal
resolves, exactly one fetch is issued, and if that fetch fails the resolved
language is the default en. -/
theorem claim_C5_geolocation (env : ResolveEnv) :
    ((loadUserProfile env).geoCalls ≠ 0 →
      durableAdopted env = none ∧ localStoreAdopted env = none ∧
      isSupported (primarySubtag env.navigatorLanguage) = false) ∧
    (durableAdopted env = none → localStoreAdopted env = none →
      isSupported (primarySubtag env.navigatorLanguage) = true →
      (loadUserProfile env).geoCalls = 0 ∧
      (loadUserProfile env).detectedLang = primarySubtag env.navigatorLanguage) ∧
    (durableAdopted env = none → localStoreAdopted env = none →
      isSupported (primarySubtag env.navigatorLanguage) = false →
      (loadUserProfile env).geoCalls = 1 ∧
      (env.geoCountryCode = .error () →
        (loadUserProfile env).detectedLang = "en")) := by
  refine ⟨?_, ?_, ?_⟩
  · intro h
    cases hd : durableAdopted env with
    | some l => simp [loadUserProfile, hd] at h
    | none =>
      cases hl : localStoreAdopted env with
      | some l => simp [loadUserProfile, hd, hl] at h
      | none =>
        refine ⟨rfl, rfl, ?_⟩
        by_contra hs
        have hs2 : isSupported (primarySubtag env.navigatorLanguage) = true := by
          revert hs
          cases isSupported (primarySubtag env.navigatorLanguage) <;> simp
        simp [loadUserProfile, hd, hl, autoDetect, hs2] at h
  · intro hd hl hs
    constructor <;> simp [loadUserProfile, hd, hl, autoDetect, hs]
  · intro hd hl hs
    constructor
    · simp only [loadUserProfile, hd, hl, autoDetect, hs]
      cases hg : env.geoCountryCode with
      | error e => simp
      | ok oc =>
        cases oc with
        | none => simp
        | some cc =>
          by_cases hcc : cc = ""
          · simp [hcc]
          · cases hm : countryToLang cc.toLower with
            | none => simp [hcc, hm]
            | some l => simp [hcc, hm]
    · intro hg
      simp [loadUserProfile, hd, hl, autoDetect, hs, hg]

theorem claim_C5_witness :
    (durableAdopted ⟨none, .ok none, none, "pt-BR", .error ()⟩ = none ∧
      localStoreAdopted ⟨none, .ok none, none, "pt-BR", .error ()⟩ = none ∧
      isSupported (primarySubtag "pt-BR") = true ∧
      (loadUserProfile ⟨none, .ok none, none, "pt-BR", .error ()⟩).geoCalls = 0) ∧
    (isSupported (primarySubtag "de-DE") = false ∧
      (loadUserProfile ⟨none, .ok none, none, "de-DE", .error ()⟩).geoCalls = 1 ∧
      (loadUserProfile ⟨none, .ok none, none, "de-DE", .error ()⟩).detectedLang = "en") :=
  ⟨⟨by decide, by decide, by decide,
    ((claim_C5_geolocation ⟨none, .ok none, none, "pt-BR", .error ()⟩).2.1
      (by decide) (by decide) (by decide)).1⟩,
   ⟨by decide,
    ((claim_C5_geolocation ⟨none, .ok none, none, "de-DE", .error ()⟩).2.2
      (by decide) (by decide) (by decide)).1,
    ((claim_C5_geolocation ⟨none, .ok none, none, "de-DE", .error ()⟩).2.2
      (by decide) (by decide) (by decide)).2 rfl⟩⟩

/-- Claim C10: a thrown durable read is swallowed; resolution continues with
the remaining priority steps exactly as if the record were absent, so a
failing read still yields an effective language. -/
theorem claim_C10_durable_read_failure (env : ResolveEnv) (uid : String) :
    env.user = some uid →
    loadUserProfile { env with firestoreLanguage := .error () } =
      loadUserProfile { env with firestoreLanguage := .ok none } := by
  intro _
  have hd1 : durableAdopted { env with firestoreLanguage := .error () } = none := by
    simp [durableAdopted]
    cases env.user <;> simp
  have hd2 : durableAdopted { env with firestoreLanguage := .ok none } = none := by
    simp [durableAdopted]
    cases env.user <;> simp
  simp [loadUserProfile, hd1, hd2, localStoreAdopted, autoDetect]

theorem claim_C10_witness :
    (some "u1" : Option String) = some "u1" ∧
    loadUserProfile ⟨some "u1", .error (), some "es", "de-DE", .error ()⟩ =
      loadUserProfile ⟨some "u1", .ok none, some "es", "de-DE", .error ()⟩ :=
  ⟨rfl, claim_C10_durable_read_failure
    ⟨some "u1", .error (), some "es", "de-DE", .error ()⟩ "u1" rfl⟩

/-! Panel state flags and the events that mutate them. -/

/-- The two transient visibility flags isPanelOpen and isSettingsOpen. -/
structure PanelState where
  isOpen : Bool
  isSettingsOpen : Bool
deriving DecidableEq, Repr

/-- The events of the source that write the two flags: the auth listener
notifications (present opens the panel, absent resets both flags), an
outside mousedown while the panel is open, the inactivity timeout firing,
the settings button toggle and the floating-control click toggle. -/
inductive PanelEvent
  | authPresent
  | authAbsent
  | outsideClick
  | inactivityExpiry
  | settingsToggle
  | controlClick
deriving DecidableEq, Repr

/-- State update performed by each event, transcribed from the setters the
source invokes in each handler. -/
def panelStep (s : PanelState) : PanelEvent → PanelState
  | .authPresent => { s with isOpen := true }
  | .authAbsent => ⟨false, false⟩
  | .outsideClick => if s.isOpen then { s with isOpen := false } else s
  | .inactivityExpiry => { s with isOpen := false }
  | .settingsToggle => { s with isSettingsOpen := !s.isSettingsOpen }
  | .controlClick => { s with isOpen := !s.isOpen }

/-- Initial flag state: both false. -/
def initialPanelState : PanelState := ⟨false, false⟩

/-- Run a sequence of panel events from a state. -/
def runPanel (s : PanelState) (evs : List PanelEvent) : PanelState :=
  evs.foldl panelStep s

/-- Render gate of the panel: shown iff isPanelOpen and an identity is
present. -/
def panelVisible (userPresent : Bool) (s : PanelState) : Bool :=
  s.isOpen && userPresent

/-- Render gate of the settings section: nested inside the open panel and
additionally gated on isSettingsOpen. -/
def settingsVisible (userPresent : Bool) (s : PanelState) : Bool :=
  panelVisible userPresent s && s.isSettingsOpen

/-- Claim C3 counterexample: log in (panel opens), toggle settings open, then
click outside. The outside-click dismissal sets only isOpen to false and
leaves isSettingsOpen true, so the claimed stored-flag invariant is violated:
the close does not set both flags to false. -/
theorem claim_C3_counterexample :
    (runPanel initialPanelState
      [.authPresent, .settingsToggle, .outsideClick]).isOpen = false ∧
    (runPanel initialPanelState
      [.authPresent, .settingsToggle, .outsideClick]).isSettingsOpen = true := by
  constructor <;> rfl

/-- Claim C3 amended: the present-to-absent identity transition resets both
flags to false; outside-click dismissal and inactivity expiry set only
isOpen to false and leave isSettingsOpen unchanged, so the stored flag pair
may hold isSettingsOpen true while isOpen is false. The visible-surface
invariant still holds: the settings section is rendered only inside an open
panel, so visible settings imply a visible panel. -/
theorem claim_C3_amended (s : PanelState) (u : Bool) :
    panelStep s .authAbsent = ⟨false, false⟩ ∧
    (s.isOpen = true → panelStep s .outsideClick = ⟨false, s.isSettingsOpen⟩) ∧
    panelStep s .inactivityExpiry = ⟨false, s.isSettingsOpen⟩ ∧
    (settingsVisible u s = true → panelVisible u s = true) := by
  refine ⟨rfl, ?_, rfl, ?_⟩
  · intro h
    simp [panelStep, h]
  · intro h
    simp [settingsVisible] at h
    exact h.1

theorem claim_C3_amended_witness :
    ((⟨true, true⟩ : PanelState).isOpen = true ∧
      panelStep ⟨true, true⟩ .outsideClick = ⟨false, true⟩) ∧
    (settingsVisible true ⟨true, true⟩ = true →
      panelVisible true ⟨true, true⟩ = true) :=
  ⟨⟨rfl, (claim_C3_amended ⟨true, true⟩ true).2.1 rfl⟩,
   (claim_C3_amended ⟨true, true⟩ true).2.2.2⟩

/-! Inactivity auto-close timer discipline. -/

/-- Timer bookkeeping: the multiset of not-yet-fired scheduled closes (by
id), the id held in inactivityTimerRef, and a fresh-id counter. -/
structure TimerState where
  pending : List Nat
  currentRef : Option Nat
  nextId : Nat
deriving DecidableEq, Repr

/-- The guarded clear the source performs: when the ref holds an id, clear
that timeout (a no-op when it already fired). The ref is left as is, exactly
as in the source. -/
def clearCurrentTimer (s : TimerState) : TimerState :=
  match s.currentRef with
  | some id => { s with pending := s.pending.erase id }
  | none => s

/-- resetInactivityTimer of the source: clear any previously scheduled close,
then schedule a fresh one and store its id in the ref. -/
def resetInactivityTimer (s : TimerState) : TimerState :=
  let s1 := clearCurrentTimer s
  { pending := s1.pending ++ [s1.nextId],
    currentRef := some s1.nextId,
    nextId := s1.nextId + 1 }

/-- Timer-relevant events: the open-panel effect run and a pointer leaving
the panel both call resetInactivityTimer; the closed-panel effect branch, a
pointer entering the panel, and the effect cleanup all clear the current
timer; a scheduled close firing removes itself from the pending set. -/
inductive TimerEvent
  | panelOpened
  | panelClosed
  | mouseEnter
  | mouseLeave
  | effectCleanup
  | timerFire (id : Nat)
deriving DecidableEq, Repr

/-- State update performed by each timer event. -/
def timerStep (s : TimerState) : TimerEvent → TimerState
  | .panelOpened => resetInactivityTimer s
  | .mouseLeave => resetInactivityTimer s
  | .panelClosed => clearCurrentTimer s
  | .mouseEnter => clearCurrentTimer s
  | .effectCleanup => clearCurrentTimer s
  | .timerFire id => { s with pending := s.pending.erase id }

/-- Initial timer state: nothing scheduled, empty ref. -/
def initialTimerState : TimerState := ⟨[], none, 0⟩

/-- Run a sequence of timer events from the initial state. -/
def runTimer (evs : List TimerEvent) : TimerState :=
  evs.foldl timerStep initialTimerState

/-- The single-timer invariant: the pending set is empty, or is exactly the
one id held by the ref. -/
def timerInv (s : TimerState) : Prop :=
  s.pending = [] ∨ ∃ id, s.currentRef = some id ∧ s.pending = [id]

theorem clearCurrentTimer_pending {s : TimerState} (h : timerInv s) :
    (clearCurrentTimer s).pending = [] := by
  rcases h with h | ⟨id, hc, hp⟩
  · unfold clearCurrentTimer
    cases s.currentRef <;> simp [h]
  · simp [clearCurrentTimer, hc, hp]

theorem clearCurrentTimer_ref (s : TimerState) :
    (clearCurrentTimer s).currentRef = s.currentRef := by
  cases h : s.currentRef <;> simp [clearCurrentTimer, h]

theorem timerInv_step {s : TimerState} (e : TimerEvent) (h : timerInv s) :
    timerInv (timerStep s e) := by
  cases e with
  | panelOpened =>
    right
    exact ⟨(clearCurrentTimer s).nextId, rfl,
      by simp [timerStep, resetInactivityTimer, clearCurrentTimer_pending h]⟩
  | mouseLeave =>
    right
    exact ⟨(clearCurrentTimer s).nextId, rfl,
      by simp [timerStep, resetInactivityTimer, clearCurrentTimer_pending h]⟩
  | panelClosed => left; exact clearCurrentTimer_pending h
  | mouseEnter => left; exact clearCurrentTimer_pending h
  | effectCleanup => left; exact clearCurrentTimer_pending h
  | timerFire id =>
    rcases h with h | ⟨i, hc, hp⟩
    · left; simp [timerStep, h]
    · by_cases hid : i = id
      · left; simp [timerStep, hp, hid]
      · right
        refine ⟨i, hc, ?_⟩
        simp [timerStep, hp, List.erase_cons, hid]

theorem timerInv_foldl (evs : List TimerEvent) (s : TimerState)
    (h : timerInv s) : timerInv (evs.foldl timerStep s) := by
  induction evs generalizing s with
  | nil => exact h
  | cons e rest ih => exact ih _ (timerInv_step e h)

theorem timerInv_run (evs : List TimerEvent) : timerInv (runTimer evs) :=
  timerInv_foldl evs initialTimerState (Or.inl rfl)

/-- Claim C8: at most one pending inactivity auto-close exists at any time:
every arming call first clears the previously scheduled close, every close
of the panel clears the pending timer, and along any event sequence from
the initial state the number of pending scheduled closes never exceeds
one. -/
theorem claim_C8_single_timer (evs : List TimerEvent) :
    (runTimer evs).pending.length ≤ 1 ∧
    (∀ s : TimerState, timerInv s → (resetInactivityTimer s).pending =
      [(clearCurrentTimer s).nextId]) ∧
    (∀ s : TimerState, timerInv s → (timerStep s .panelClosed).pending = []) := by
  refine ⟨?_, ?_, ?_⟩
  · rcases timerInv_run evs with h | ⟨i, _, h⟩ <;> simp [h]
  · intro s hs
    simp [resetInactivityTimer, clearCurrentTimer_pending hs]
  · intro s hs
    exact clearCurrentTimer_pending hs

theorem claim_C8_witness :
    (runTimer [.panelOpened, .mouseLeave, .mouseLeave]).pending.length ≤ 1 ∧
    (timerInv ⟨[5], some 5, 6⟩ ∧
      (resetInactivityTimer ⟨[5], some 5, 6⟩).pending =
        [(clearCurrentTimer ⟨[5], some 5, 6⟩).nextId]) :=
  ⟨(claim_C8_single_timer [.panelOpened, .mouseLeave, .mouseLeave]).1,
   ⟨Or.inr ⟨5, rfl, rfl⟩,
    (claim_C8_single_timer []).2.1 ⟨[5], some 5, 6⟩ (Or.inr ⟨5, rfl, rfl⟩)⟩⟩

/-! Drag/click disambiguation on the floating control. -/

/-- A pointer position in page coordinates. -/
structure PointerPos where
  x : Int
  y : Int
deriving DecidableEq, Repr

/-- Per-session drag state captured by the handleDrag closure: the sticky
moved flag and the current left/top offsets of the control. -/
structure DragState where
  hasMoved : Bool
  left : Int
  top : Int
deriving DecidableEq, Repr

/-- onMouseMove of handleDrag: when the displacement from the start exceeds
5 px in either axis, mark the session moved and translate the control by the
pointer delta; otherwise leave the state untouched. -/
def onMouseMove (start : PointerPos) (startLeft startTop : Int)
    (s : DragState) (pos : PointerPos) : DragState :=
  let dx := pos.x - start.x
  let dy := pos.y - start.y
  if dx.natAbs > 5 || dy.natAbs > 5 then
    { hasMoved := true, left := startLeft + dx, top := startTop + dy }
  else s

/-- Whether one move event exceeds the 5 px threshold from the start. -/
def moveExceeds (start pos : PointerPos) : Bool :=
  (pos.x - start.x).natAbs > 5 || (pos.y - start.y).natAbs > 5

/-- The click action resolved on pointer-up. -/
inductive ClickOutcome
  | noAction
  | panelToggled
  | authPromptOpened
deriving DecidableEq, Repr

/-- onMouseUp of handleDrag: with the session never marked moved, a present
identity toggles the panel and an absent one opens the auth prompt; a moved
session fires no click action. -/
def onMouseUp (userPresent : Bool) (s : DragState) : ClickOutcome :=
  if !s.hasMoved then
    if userPresent then .panelToggled else .authPromptOpened
  else .noAction

/-- One whole pointer-down/move/up session: fold the move events over the
initial closure state, then resolve the up event. -/
def dragSession (userPresent : Bool) (start : PointerPos)
    (startLeft startTop : Int) (moves : List PointerPos) : ClickOutcome :=
  onMouseUp userPresent
    (moves.foldl (onMouseMove start startLeft startTop)
      ⟨false, startLeft, startTop⟩)

theorem onMouseMove_hasMoved (start : PointerPos) (l t : Int)
    (s : DragState) (pos : PointerPos) :
    (onMouseMove start l t s pos).hasMoved =
      (s.hasMoved || moveExceeds start pos) := by
  by_cases h : moveExceeds start pos = true
  · simp only [moveExceeds] at h
    simp [onMouseMove, h, moveExceeds]
  · simp only [moveExceeds, Bool.or_eq_true, not_or] at h
    simp [onMouseMove, moveExceeds, h.1, h.2]

theorem dragFold_hasMoved (start : PointerPos) (l t : Int)
    (moves : List PointerPos) (s : DragState) :
    (moves.foldl (onMouseMove start l t) s).hasMoved =
      (s.hasMoved || moves.any (moveExceeds start)) := by
  induction moves generalizing s with
  | nil => simp
  | cons m rest ih =>
    simp only [List.foldl_cons, List.any_cons]
    rw [ih, onMouseMove_hasMoved, Bool.or_assoc]

/-- Claim C6: a session in which some move exceeded the 5 px threshold fires
no click action: the panel is not toggled and the auth prompt is not opened.
A session in which every move stayed within the threshold fires exactly one
action: it toggles the panel when an identity is present and opens the auth
prompt when it is absent. -/
theorem claim_C6_drag_click (userPresent : Bool) (start : PointerPos)
    (l t : Int) (moves : List PointerPos) :
    (moves.any (moveExceeds start) = true →
      dragSession userPresent start l t moves = .noAction) ∧
    (moves.any (moveExceeds start) = false →
      dragSession userPresent start l t moves =
        (if userPresent then .panelToggled else .authPromptOpened) ∧
      dragSession userPresent start l t moves ≠ .noAction) := by
  constructor
  · intro h
    simp [dragSession, onMouseUp, dragFold_hasMoved, h]
  · intro h
    have hm : (moves.foldl (onMouseMove start l t)
        ⟨false, l, t⟩).hasMoved = false := by
      rw [dragFold_hasMoved]
      simp [h]
    refine ⟨by simp [dragSession, onMouseUp, hm], ?_⟩
    simp only [dragSession, onMouseUp, hm]
    cases userPresent <;> simp

theorem claim_C6_witness :
    ([(⟨10, 0⟩ : PointerPos)].any (moveExceeds ⟨0, 0⟩) = true ∧
      dragSession true ⟨0, 0⟩ 0 0 [⟨10, 0⟩] = .noAction) ∧
    ([(⟨3, 3⟩ : PointerPos)].any (moveExceeds ⟨0, 0⟩) = false ∧
      dragSession false ⟨0, 0⟩ 0 0 [⟨3, 3⟩] =
        (if false then ClickOutcome.panelToggled else .authPromptOpened)) :=
  ⟨⟨by decide,
    (claim_C6_drag_click true ⟨0, 0⟩ 0 0 [⟨10, 0⟩]).1 (by decide)⟩,
   ⟨by decide,
    ((claim_C6_drag_click false ⟨0, 0⟩ 0 0 [⟨3, 3⟩]).2 (by decide)).1⟩⟩

/-! Auth action handler of the modal. -/

/-- The two credential actions of the modal. -/
inductive AuthAction
  | login
  | register
deriving DecidableEq, Repr

/-- Which identity-provider endpoint was invoked. -/
inductive ProviderCall
  | signInWithEmailAndPassword
  | createUserWithEmailAndPassword
deriving DecidableEq, Repr

/-- The user-facing message classes of the modal, one per translation key
the source selects. -/
inductive AuthMessage
  | fillFields
  | emailInUse
  | invalidEmail
  | invalidCredential
  | weakPassword
  | unexpected
deriving DecidableEq, Repr

/-- handleFirebaseError of the modal: the switch over provider error codes.
Three credential codes unify into one message; unknown codes map to the
generic message. -/
def handleFirebaseError (code : String) : AuthMessage :=
  if code = "auth/email-already-in-use" then .emailInUse
  else if code = "auth/invalid-email" then .invalidEmail
  else if code = "auth/wrong-password" then .invalidCredential
  else if code = "auth/user-not-found" then .invalidCredential
  else if code = "auth/invalid-credential" then .invalidCredential
  else if code = "auth/weak-password" then .weakPassword
  else .unexpected

/-- Observable outcome of one handleAuthAction call: the inline message
shown, the provider endpoint invoked (when any), the loading flag and the
in-flight action marker after control returns, and whether the modal was
closed. -/
structure AuthOutcome where
  errorMsg : Option AuthMessage
  providerCall : Option ProviderCall
  loadingFinal : Bool
  inFlightFinal : Option AuthAction
  modalClosed : Bool
deriving DecidableEq, Repr

/-- handleAuthAction of the modal: empty email or password short-circuits to
the fill-fields message with no provider call; otherwise the endpoint
matching the action runs, success closes the modal, failure maps the error
code; the finally block clears loading and the in-flight marker on every
path. -/
def handleAuthAction (action : AuthAction) (email password : String)
    (providerResult : Except String Unit) : AuthOutcome :=
  if email = "" || password = "" then
    ⟨some .fillFields, none, false, none, false⟩
  else
    let call := match action with
      | .register => ProviderCall.createUserWithEmailAndPassword
      | .login => ProviderCall.signInWithEmailAndPassword
    match providerResult with
    | .ok _ => ⟨none, some call, false, none, true⟩
    | .error code => ⟨some (handleFirebaseError code), some call, false, none, false⟩

/-- Claim C9: an empty email or password yields the fill-fields message
class and no provider call; with both fields nonempty the endpoint matching
the action is invoked and, on success and failure alike, control returns
with the loading flag cleared and no action marked in flight. -/
theorem claim_C9_auth_action (action : AuthAction) (email password : String)
    (res : Except String Unit) :
    (email = "" ∨ password = "" →
      handleAuthAction action email password res =
        ⟨some .fillFields, none, false, none, false⟩) ∧
    (email ≠ "" → password ≠ "" →
      (handleAuthAction action email password res).providerCall =
        some (match action with
          | .register => ProviderCall.createUserWithEmailAndPassword
          | .login => ProviderCall.signInWithEmailAndPassword) ∧
      (handleAuthAction action email password res).loadingFinal = false ∧
      (handleAuthAction action email password res).inFlightFinal = none) := by
  constructor
  · intro h
    rcases h with h | h <;> simp [handleAuthAction, h]
  · intro he hp
    cases res with
    | ok u => simp [handleAuthAction, he, hp]
    | error code => simp [handleAuthAction, he, hp]

theorem claim_C9_witness :
    ((("" : String) = "" ∨ ("pw" : String) = "") ∧
      handleAuthAction .login "" "pw" (.ok ()) =
        ⟨some .fillFields, none, false, none, false⟩) ∧
    (("a@b.c" : String) ≠ "" ∧ ("pw" : String) ≠ "" ∧
      (handleAuthAction .login "a@b.c" "pw"
        (.error "auth/wrong-password")).providerCall =
          some ProviderCall.signInWithEmailAndPassword ∧
      (handleAuthAction .login "a@b.c" "pw"
        (.error "auth/wrong-password")).loadingFinal = false ∧
      (handleAuthAction .login "a@b.c" "pw"
        (.error "auth/wrong-password")).inFlightFinal = none) :=
  ⟨⟨Or.inl rfl,
    (claim_C9_auth_action .login "" "pw" (.ok ())).1 (Or.inl rfl)⟩,
   ⟨by decide, by decide,
    ((claim_C9_auth_action .login "a@b.c" "pw"
      (.error "auth/wrong-password")).2 (by decide) (by decide)).1,
    ((claim_C9_auth_action .login "a@b.c" "pw"
      (.error "auth/wrong-password")).2 (by decide) (by decide)).2.1,
    ((claim_C9_auth_action .login "a@b.c" "pw"
      (.error "auth/wrong-password")).2 (by decide) (by decide)).2.2⟩⟩

/-! Subtitle simulator. -/

/-- Modelled from the spec: the per-language bundle of the translation
catalog, as consumed by the simulator: the fixed active placeholder caption
and the sample-caption list. The catalog module is not among the provided
sources. -/
structure TranslationBundle where
  translationActive : String
  subtitleSamples : List String
deriving DecidableEq, Repr

/-- The fixed refresh cadence of the simulator, in time units. -/
def subtitleIntervalMs : Nat := 3000

/-- The governing conjunction of the simulation effect: identity present,
subtitles enabled, translation not stopped. -/
def subtitleSimActive (userPresent subtitlesEnabled isTranslationStopped : Bool) :
    Bool :=
  userPresent && subtitlesEnabled && !isTranslationStopped

/-- The sample index the source computes from one draw of the random source:
the floor of the draw times the sample count. -/
def selIndex (q : ℚ) (n : Nat) : Nat := (Int.floor (q * n)).toNat

/-- The caption displayed at a given elapsed time, with the interval having
fired elapsed divided by the cadence times: inactive shows the empty
caption; before the first firing the fixed placeholder shows; afterwards
the sample drawn by the random source at the latest firing shows. -/
def subtitleDisplayAt (userPresent subtitlesEnabled isTranslationStopped : Bool)
    (t : TranslationBundle) (r : Nat → ℚ) (elapsed : Nat) : String :=
  if subtitleSimActive userPresent subtitlesEnabled isTranslationStopped then
    if elapsed / subtitleIntervalMs = 0 then t.translationActive
    else
      t.subtitleSamples.getD
        (selIndex (r (elapsed / subtitleIntervalMs)) t.subtitleSamples.length) ""
  else ""

theorem selIndex_lt {q : ℚ} {n : Nat} (hn : 0 < n) (h0 : 0 ≤ q) (h1 : q < 1) :
    selIndex q n < n := by
  have hnq : (0 : ℚ) < (n : ℚ) := by exact_mod_cast hn
  have hmul : q * n < n := by
    calc q * (n : ℚ) < 1 * n := by exact mul_lt_mul_of_pos_right h1 hnq
    _ = n := one_mul _
  have hfl : Int.floor (q * (n : ℚ)) < (n : ℤ) := by
    rw [Int.floor_lt]
    exact_mod_cast hmul
  have hge : (0 : ℤ) ≤ Int.floor (q * (n : ℚ)) :=
    Int.floor_nonneg.mpr (mul_nonneg h0 (le_of_lt hnq))
  unfold selIndex
  omega

theorem getD_mem_of_lt (l : List String) (i : Nat) (h : i < l.length)
    (d : String) : l.getD i d ∈ l := by
  induction l generalizing i with
  | nil => simp at h
  | cons a tl ih =>
    cases i with
    | zero => simp
    | succ j =>
      simp only [List.getD_cons_succ]
      exact List.mem_cons_of_mem a (ih j (by simpa using h))

theorem selIndex_uniform (i n : Nat) (q : ℚ) (hn : 0 < n) (h0 : 0 ≤ q)
    (h1 : q < 1) :
    selIndex q n = i ↔ (i : ℚ) / n ≤ q ∧ q < ((i : ℚ) + 1) / n := by
  have hnq : (0 : ℚ) < (n : ℚ) := by exact_mod_cast hn
  have hge : (0 : ℤ) ≤ Int.floor (q * (n : ℚ)) :=
    Int.floor_nonneg.mpr (mul_nonneg h0 (le_of_lt hnq))
  have hsel : selIndex q n = i ↔ Int.floor (q * (n : ℚ)) = (i : ℤ) := by
    unfold selIndex
    omega
  have hdiv1 : (i : ℚ) / n ≤ q ↔ (i : ℚ) ≤ q * n := div_le_iff₀ hnq
  have hdiv2 : q < ((i : ℚ) + 1) / n ↔ q * n < (i : ℚ) + 1 := lt_div_iff₀ hnq
  rw [hsel, Int.floor_eq_iff, hdiv1, hdiv2]
  push_cast
  tauto

/-- Claim C7: when the governing conjunction (identity present, subtitles
enabled, not stopped) is false the displayed caption is the empty string;
while it holds, the fixed active placeholder shows until the first interval
firing at 3000 time units, and at every later time the displayed caption is
a member of the sample-caption set of the current language whenever the
random draw lies in the unit interval; the selection is uniform in the sense
that for each index i below the sample count the draws selecting i form the
half-open interval from i over n to i plus one over n, all of equal width. -/
theorem claim_C7_subtitle_simulator (u e st : Bool) (t : TranslationBundle)
    (r : Nat → ℚ) (elapsed : Nat) :
    (subtitleSimActive u e st = false →
      subtitleDisplayAt u e st t r elapsed = "") ∧
    (subtitleSimActive u e st = true → elapsed < subtitleIntervalMs →
      subtitleDisplayAt u e st t r elapsed = t.translationActive) ∧
    (subtitleSimActive u e st = true → subtitleIntervalMs ≤ elapsed →
      0 < t.subtitleSamples.length →
      0 ≤ r (elapsed / subtitleIntervalMs) →
      r (elapsed / subtitleIntervalMs) < 1 →
      subtitleDisplayAt u e st t r elapsed ∈ t.subtitleSamples) ∧
    (∀ (i n : Nat) (q : ℚ), 0 < n → 0 ≤ q → q < 1 →
      (selIndex q n = i ↔ (i : ℚ) / n ≤ q ∧ q < ((i : ℚ) + 1) / n)) := by
  refine ⟨?_, ?_, ?_, ?_⟩
  · intro h
    simp [subtitleDisplayAt, h]
  · intro h hlt
    have hz : elapsed / subtitleIntervalMs = 0 := Nat.div_eq_of_lt hlt
    simp [subtitleDisplayAt, h, hz]
  · intro h hle hlen h0 h1
    have hnz : elapsed / subtitleIntervalMs ≠ 0 := by
      have : 0 < subtitleIntervalMs := by decide
      have := (Nat.one_le_div_iff this).mpr hle
      omega
    have hidx : selIndex (r (elapsed / subtitleIntervalMs))
        t.subtitleSamples.length < t.subtitleSamples.length :=
      selIndex_lt hlen h0 h1
    rw [subtitleDisplayAt, if_pos h, if_neg hnz]
    exact getD_mem_of_lt _ _ hidx ""
  · exact fun i n q hn h0 h1 => selIndex_uniform i n q hn h0 h1

theorem claim_C7_witness :
    (subtitleSimActive true true true = false ∧
      subtitleDisplayAt true true true ⟨"act", ["a", "b"]⟩ (fun _ => 1/2) 0 = "") ∧
    (subtitleSimActive true true false = true ∧ 0 < subtitleIntervalMs ∧
      subtitleDisplayAt true true false ⟨"act", ["a", "b"]⟩ (fun _ => 1/2) 0 = "act") ∧
    (subtitleDisplayAt true true false ⟨"act", ["a", "b"]⟩
      (fun _ => 1/2) 3000 ∈ ["a", "b"]) ∧
    (selIndex (1/2) 2 = 1 ↔ (1 : ℚ) / 2 ≤ 1/2 ∧ (1/2 : ℚ) < ((1 : ℚ) + 1) / 2) :=
  ⟨⟨rfl, (claim_C7_subtitle_simulator true true true ⟨"act", ["a", "b"]⟩
      (fun _ => 1/2) 0).1 rfl⟩,
   ⟨rfl, by decide, (claim_C7_subtitle_simulator true true false
      ⟨"act", ["a", "b"]⟩ (fun _ => 1/2) 0).2.1 rfl (by decide)⟩,
   (claim_C7_subtitle_simulator true true false ⟨"act", ["a", "b"]⟩
      (fun _ => 1/2) 3000).2.2.1 rfl (by decide) (by decide)
      (by norm_num) (by norm_num),
   (claim_C7_subtitle_simulator true true false ⟨"act", ["a", "b"]⟩
      (fun _ => 1/2) 0).2.2.2 1 2 (1/2) (by decide) (by norm_num) (by norm_num)⟩

end YouVoix
